import Mathlib

/-!
Verification development for the dialogue core of the MetaHuman digital-human
backend (`server/app/services/dialogue.py`).

The Python module is shallowly embedded:

* `Reply` embeds the dict `dict with keys replyText, emotion, action` returned
  by the service.
* `Turn` embeds one history entry `dict with keys role, content, timestamp`.
* The module-level mutable `session_histories : Dict[str, List[dict]]` is
  embedded as an explicit association-list state `SessionStore` threaded
  through the operations (insertion-ordered, keys unique in any state a
  Python dict can reach).
* `_get_smart_mock_reply` uses `random.choice`; the random source is made
  explicit as a natural number `r`, and `random.choice xs` is embedded as
  indexing by `r % xs.length`.
* The remote HTTP call inside `generate_reply` is the only effectful input:
  its outcome is an explicit argument `RemoteOutcome`.  A raised
  `httpx.TimeoutException`, a transport error, a non-2xx status
  (`raise_for_status`) and a missing `choices/message/content` key all land
  in the `except` handlers, embedded as `RemoteOutcome.failure`.  A 2xx
  answer whose extracted content string fails `json.loads` is
  `RemoteContent.notJson`; one that parses to a non-dict JSON value makes
  `parsed.get(...)` raise `AttributeError` (caught by `except Exception`),
  embedded as `RemoteContent.jsonNonObj`; a dict is `RemoteContent.jsonObj`
  carrying the three looked-up fields (already `str()`-coerced) as optional
  strings.
* `datetime.now().isoformat()` timestamps are explicit string arguments.
-/

/-- Embeds one entry of a session history list:
`dict with keys role, content, timestamp` as appended in `generate_reply`. -/
structure Turn where
  role : String
  content : String
  timestamp : String
deriving DecidableEq

/-- Embeds the reply dict `dict with keys replyText, emotion, action`. -/
structure Reply where
  replyText : String
  emotion : String
  action : String
deriving DecidableEq

/-- Embeds one chat message `dict with keys role, content` of the prompt list
`messages` built for the remote call. -/
structure Message where
  role : String
  content : String
deriving DecidableEq

/-- Embeds the module-level `session_histories` dict as an insertion-ordered
association list. -/
abbrev SessionStore := List (String × List Turn)

/-- Embeds `MAX_HISTORY_LENGTH = 20`. -/
def MAX_HISTORY_LENGTH : Nat := 20

/-- Python truthiness of an optional string (`if not self.api_key`,
`if session_id`): `None` and `""` are falsy. -/
def optTruthy : Option String → Bool
  | none => false
  | some s => !(s == "")

/-- Embeds Python's `pat in s` substring test, prefix check part:
does `pat` occur at the head of `s`? -/
def listPrefixOf : List Char → List Char → Bool
  | [], _ => true
  | _ :: _, [] => false
  | a :: as, b :: bs => a == b && listPrefixOf as bs

/-- Embeds Python's `pat in s` substring test on character lists. -/
def listSub (pat : List Char) : List Char → Bool
  | [] => pat.isEmpty
  | c :: rest => listPrefixOf pat (c :: rest) || listSub pat rest

/-- Embeds the Python substring operator `pat in s`. -/
def containsSub (s pat : String) : Bool := listSub pat.data s.data

/-- Embeds Python's `str.lower()` (character-wise lowering; identity on the
CJK characters occurring in the keyword sets). -/
def pyLower (s : String) : String := String.mk (s.data.map Char.toLower)

/-- Embeds Python's `str.strip()` on the field strings pulled out of the
remote JSON object: leading and trailing whitespace characters removed. -/
def pyStrip (s : String) : String :=
  String.mk
    (((s.data.dropWhile Char.isWhitespace).reverse.dropWhile
      Char.isWhitespace).reverse)

/-- Embeds `random.choice(xs)` with the random source made explicit: an
arbitrary index `r` reduced modulo the length. -/
def pyChoice (xs : List Reply) (r : Nat) : Reply :=
  xs.getD (r % xs.length) ⟨"", "", ""⟩

/-- Embeds the greeting keyword list `greetings` of `_get_smart_mock_reply`. -/
def greetingsKw : List String :=
  ["你好", "您好", "hello", "hi", "嗨", "早上好", "下午好", "晚上好"]

/-- Embeds the canned greeting triple list `replies`. -/
def greetingReplies : List Reply :=
  [⟨"您好！很高兴见到您，有什么可以帮助您的吗？", "happy", "wave"⟩,
   ⟨"你好呀！今天心情怎么样？", "happy", "greet"⟩,
   ⟨"嗨！欢迎来到数字人交互系统！", "happy", "wave"⟩]

/-- Embeds the canned self-introduction reply. -/
def introReply : Reply :=
  ⟨"我是一个数字人助手，可以和您进行对话交流，展示各种表情和动作。您可以问我问题，或者让我做一些动作！", "happy", "greet"⟩

/-- Embeds the canned gratitude reply. -/
def thanksReply : Reply :=
  ⟨"不客气！能帮到您我很开心。还有其他需要帮助的吗？", "happy", "nod"⟩

/-- Embeds the canned farewell reply. -/
def byeReply : Reply :=
  ⟨"再见！期待下次与您交流！", "happy", "wave"⟩

/-- Embeds the canned weather reply. -/
def weatherReply : Reply :=
  ⟨"今天天气看起来不错呢！适合出去走走。不过我是数字人，没办法真正感受天气，哈哈。", "happy", "think"⟩

/-- Embeds the canned dance reply. -/
def danceReply : Reply :=
  ⟨"好的，让我来给您跳一段舞！", "happy", "dance"⟩

/-- Embeds the canned question reply. -/
def questionReply : Reply :=
  ⟨"这是个好问题！让我想想... 作为数字人助手，我会尽力帮助您。您能说得更具体一些吗？", "neutral", "think"⟩

/-- Embeds the canned default triple list `default_replies`. -/
def defaultReplies : List Reply :=
  [⟨"我明白了，请继续说。", "neutral", "nod"⟩,
   ⟨"好的，我在听。", "neutral", "idle"⟩,
   ⟨"嗯嗯，有什么我可以帮助您的吗？", "neutral", "nod"⟩,
   ⟨"了解了，还有其他想说的吗？", "neutral", "idle"⟩]

/-- Embeds `DialogueService._get_smart_mock_reply` (the Local Responder):
keyword categories tested in source order, randomized choice `r` for the
greeting and default categories.  The source's `text_lower` binding is
inlined as `pyLower user_text` at its two use sites. -/
def get_smart_mock_reply (user_text : String) (r : Nat) : Reply :=
  if greetingsKw.any (fun g => containsSub (pyLower user_text) g) then
    pyChoice greetingReplies r
  else if containsSub user_text "你是谁" || containsSub user_text "介绍" ||
      containsSub user_text "什么" then
    introReply
  else if containsSub user_text "谢谢" || containsSub user_text "感谢" then
    thanksReply
  else if containsSub user_text "再见" || containsSub user_text "拜拜" ||
      containsSub (pyLower user_text) "bye" then
    byeReply
  else if containsSub user_text "天气" then
    weatherReply
  else if containsSub user_text "跳舞" || containsSub user_text "舞" then
    danceReply
  else if containsSub user_text "?" || containsSub user_text "？" ||
      containsSub user_text "吗" then
    questionReply
  else
    pyChoice defaultReplies r

/-- Embeds the dict lookup `session_histories.get(sid, [])` (also what
`session_histories[sid]` evaluates to once defaulting is accounted for). -/
def storeGet (st : SessionStore) (sid : String) : List Turn :=
  match st with
  | [] => []
  | (k, v) :: rest => if k == sid then v else storeGet rest sid

/-- Embeds the dict membership test `sid in session_histories`. -/
def storeMem (st : SessionStore) (sid : String) : Bool :=
  match st with
  | [] => false
  | (k, _) :: rest => k == sid || storeMem rest sid

/-- Embeds the dict assignment `session_histories[sid] = h` (dicts preserve
insertion order; new keys go to the end). -/
def storeSet (st : SessionStore) (sid : String) (h : List Turn) : SessionStore :=
  match st with
  | [] => [(sid, h)]
  | (k, v) :: rest => if k == sid then (sid, h) :: rest else (k, v) :: storeSet rest sid h

/-- Embeds `del session_histories[sid]`. -/
def storeDel (st : SessionStore) (sid : String) : SessionStore :=
  match st with
  | [] => []
  | (k, v) :: rest => if k == sid then rest else (k, v) :: storeDel rest sid

/-- Representation invariant of a Python dict: keys are unique. -/
def storeWF (st : SessionStore) : Prop := (st.map Prod.fst).Nodup

/-- Distinguishes `except httpx.TimeoutException` from the failures caught by
the broad `except Exception` in `generate_reply` (transport errors, the
`raise_for_status` of a non-2xx answer, a missing `choices`/`message`/
`content` key). -/
inductive FailureKind
  | timeout
  | transportError
  | httpStatusError
  | badStructure
deriving DecidableEq

/-- Embeds what `json.loads(content)` does with the content string of a
successful remote answer. -/
inductive RemoteContent
  | notJson (raw : String)
  | jsonNonObj
  | jsonObj (replyText emotion action : Option String)
deriving DecidableEq

/-- Embeds the outcome of the awaited `client.post` call. -/
inductive RemoteOutcome
  | failure (k : FailureKind)
  | success (c : RemoteContent)
deriving DecidableEq

/-- Embeds lines 108-116 of `generate_reply`: if `session_id` is truthy,
append the user turn and trim to the most recent `MAX_HISTORY_LENGTH * 2`
entries when the bound is exceeded. -/
def recordUserTurn (st : SessionStore) (session_id : Option String)
    (user_text ts : String) : SessionStore :=
  match session_id with
  | none => st
  | some sid =>
    if sid == "" then st
    else
      let h := storeGet st sid ++ [⟨"user", user_text, ts⟩]
      let h := if h.length > MAX_HISTORY_LENGTH * 2 then
        h.drop (h.length - MAX_HISTORY_LENGTH * 2) else h
      storeSet st sid h

/-- Embeds the two `session_histories[session_id].append(dict role assistant ...)`
blocks of `generate_reply` (no trimming there). -/
def recordAssistantTurn (st : SessionStore) (session_id : Option String)
    (content ts : String) : SessionStore :=
  match session_id with
  | none => st
  | some sid =>
    if sid == "" then st
    else storeSet st sid (storeGet st sid ++ [⟨"assistant", content, ts⟩])

/-- Embeds the fixed `system_prompt` string. -/
def system_prompt : String :=
  "你是一个驱动虚拟数字人的对话大脑。必须使用简体中文回答用户。请只输出一个 JSON 对象，包含三个字段：replyText（字符串，给用户的自然语言回答，要友好自然），emotion（字符串，取值限定为: neutral, happy, surprised, sad, angry），action（字符串，取值限定为: idle, wave, greet, think, nod, shakeHead, dance, speak）。不要输出 JSON 以外的任何文字。根据对话内容选择合适的情感和动作。"

/-- Embeds the slice `session_histories[session_id][-10:]`. -/
def historyWindow (st : SessionStore) (sid : String) : List Turn :=
  let h := storeGet st sid
  h.drop (h.length - 10)

/-- Embeds the loop body of lines 148-153: a history entry whose role is
`user` or `assistant` contributes one role-tagged prompt message carrying
its content verbatim; any other entry is skipped. -/
def toPromptMsg (t : Turn) : Option Message :=
  if t.role == "user" || t.role == "assistant" then
    some ⟨t.role, t.content⟩
  else none

/-- Embeds lines 140-167 of `generate_reply`: the prompt list `messages`
built on the remote path, from the store as it stands after the user turn
was recorded. -/
def buildMessages (st : SessionStore) (user_text : String)
    (session_id : Option String) (meta : Option String) : List Message :=
  let hist : List Message :=
    match session_id with
    | none => []
    | some sid =>
      if sid == "" then []
      else if storeMem st sid then
        (historyWindow st sid).filterMap toPromptMsg
      else []
  let msgs := ⟨"system", system_prompt⟩ :: hist ++ [⟨"user", user_text⟩]
  match meta with
  | none => msgs
  | some m => msgs ++ [⟨"system", "附加上下文信息（可选）：" ++ m⟩]

/-- Embeds the 5-value emotion enumeration of lines 201-202. -/
def emotions : List String := ["neutral", "happy", "surprised", "sad", "angry"]

/-- Embeds the 8-value action enumeration of lines 203-204. -/
def actions : List String :=
  ["idle", "wave", "greet", "think", "nod", "shakeHead", "dance", "speak"]

/-- Embeds lines 197-204 of `generate_reply`: field extraction with `.get`
defaults, stripping, empty-string substitution and enumeration clamping on a
remote content string that parsed to a JSON object. -/
def normalizeObj (rt em ac : Option String) (user_text : String) : Reply :=
  let reply_text :=
    let s := pyStrip (rt.getD "")
    if s == "" then "你刚才说：" ++ user_text else s
  let emotion0 :=
    let s := pyStrip (em.getD "neutral")
    if s == "" then "neutral" else s
  let action0 :=
    let s := pyStrip (ac.getD "idle")
    if s == "" then "idle" else s
  let emotion := if emotions.contains emotion0 then emotion0 else "neutral"
  let action := if actions.contains action0 then action0 else "idle"
  ⟨reply_text, emotion, action⟩

/-- Embeds `DialogueService.generate_reply`.  Inputs: the configured
`api_key` (`self.api_key`), the current `session_histories` state, the call
arguments, the remote outcome, the random source `r`, and the two
`datetime.now().isoformat()` timestamps.  Output: the returned reply dict,
the new `session_histories` state, and the prompt `messages` actually posted
(`none` when the local path was taken and no request was sent). -/
def generate_reply (api_key : Option String) (st : SessionStore)
    (user_text : String) (session_id : Option String) (meta : Option String)
    (remote : RemoteOutcome) (r : Nat) (ts_user ts_asst : String) :
    Reply × SessionStore × Option (List Message) :=
  let st1 := recordUserTurn st session_id user_text ts_user
  if optTruthy api_key = false then
    let result := get_smart_mock_reply user_text r
    (result, recordAssistantTurn st1 session_id result.replyText ts_asst, none)
  else
    let msgs := buildMessages st1 user_text session_id meta
    match remote with
    | .failure _ => (get_smart_mock_reply user_text r, st1, some msgs)
    | .success (.notJson raw) => (⟨raw, "neutral", "idle"⟩, st1, some msgs)
    | .success .jsonNonObj => (get_smart_mock_reply user_text r, st1, some msgs)
    | .success (.jsonObj rt em ac) =>
      let rep := normalizeObj rt em ac user_text
      (rep, recordAssistantTurn st1 session_id rep.replyText ts_asst, some msgs)

/-- Embeds `DialogueService.clear_session`: result flag and new state. -/
def clear_session (st : SessionStore) (session_id : String) : Bool × SessionStore :=
  if storeMem st session_id then (true, storeDel st session_id) else (false, st)

/-- Embeds `DialogueService.get_session_history`. -/
def get_session_history (st : SessionStore) (session_id : String) : List Turn :=
  storeGet st session_id

/-- All canned triples the Local Responder can ever return. -/
def allMockReplies : List Reply :=
  greetingReplies ++ introReply :: thanksReply :: byeReply :: weatherReply ::
    danceReply :: questionReply :: defaultReplies

theorem storeGet_storeSet_self (st : SessionStore) (sid : String) (h : List Turn) :
    storeGet (storeSet st sid h) sid = h := by
  induction st with
  | nil => simp [storeSet, storeGet]
  | cons p rest ih =>
    obtain ⟨k, v⟩ := p
    by_cases hk : k = sid
    · subst hk; simp [storeSet, storeGet]
    · simp [storeSet, storeGet, hk, ih]

theorem storeGet_storeSet_ne (st : SessionStore) (sid q : String) (h : List Turn)
    (hne : q ≠ sid) : storeGet (storeSet st sid h) q = storeGet st q := by
  have hqs : (sid == q) = false := beq_eq_false_iff_ne.mpr (Ne.symm hne)
  induction st with
  | nil => simp [storeSet, storeGet, hqs]
  | cons p rest ih =>
    obtain ⟨k, v⟩ := p
    by_cases hk : k = sid
    · subst hk; simp [storeSet, storeGet, hqs]
    · have hks : (k == sid) = false := beq_eq_false_iff_ne.mpr hk
      simp [storeSet, storeGet, hks, ih]

theorem storeMem_storeSet_self (st : SessionStore) (sid : String) (h : List Turn) :
    storeMem (storeSet st sid h) sid = true := by
  induction st with
  | nil => simp [storeSet, storeMem]
  | cons p rest ih =>
    obtain ⟨k, v⟩ := p
    by_cases hk : k = sid
    · subst hk; simp [storeSet, storeMem]
    · simp [storeSet, storeMem, hk, ih]

theorem storeGet_eq_nil_of_not_key (st : SessionStore) (sid : String)
    (h : sid ∉ st.map Prod.fst) : storeGet st sid = [] := by
  induction st with
  | nil => rfl
  | cons p rest ih =>
    obtain ⟨k, v⟩ := p
    simp only [List.map_cons, List.mem_cons] at h
    push_neg at h
    have hk : (k == sid) = false :=
      beq_eq_false_iff_ne.mpr (fun e => h.1 e.symm)
    simp [storeGet, hk, ih h.2]

theorem storeMem_false_not_key (st : SessionStore) (sid : String)
    (h : storeMem st sid = false) : sid ∉ st.map Prod.fst := by
  induction st with
  | nil => simp
  | cons p rest ih =>
    obtain ⟨k, v⟩ := p
    simp only [storeMem, Bool.or_eq_false_iff, beq_eq_false_iff_ne] at h
    simp only [List.map_cons, List.mem_cons]
    push_neg
    exact ⟨fun hq => h.1 hq.symm, ih h.2⟩

theorem storeGet_storeDel_self (st : SessionStore) (sid : String)
    (wf : storeWF st) : storeGet (storeDel st sid) sid = [] := by
  induction st with
  | nil => rfl
  | cons p rest ih =>
    obtain ⟨k, v⟩ := p
    rw [storeWF, List.map_cons, List.nodup_cons] at wf
    by_cases hk : k = sid
    · subst hk
      simp only [storeDel, beq_self_eq_true, if_pos rfl]
      exact storeGet_eq_nil_of_not_key rest k wf.1
    · simp [storeDel, storeGet, hk, ih wf.2]

theorem pyChoice_mem (xs : List Reply) (r : Nat) (hne : xs ≠ []) :
    pyChoice xs r ∈ xs := by
  have hlen : 0 < xs.length := List.length_pos.mpr hne
  have hlt : r % xs.length < xs.length := Nat.mod_lt _ hlen
  rw [pyChoice, List.getD_eq_getElem?_getD, List.getElem?_eq_getElem hlt]
  exact List.getElem_mem hlt

theorem mock_mem (s : String) (r : Nat) :
    get_smart_mock_reply s r ∈ allMockReplies := by
  have hg : ∀ x ∈ greetingReplies, x ∈ allMockReplies := by decide
  have hd : ∀ x ∈ defaultReplies, x ∈ allMockReplies := by decide
  unfold get_smart_mock_reply
  repeat' split
  all_goals first
    | exact hg _ (pyChoice_mem _ _ (by decide))
    | exact hd _ (pyChoice_mem _ _ (by decide))
    | decide

theorem mock_enum_ok (s : String) (r : Nat) :
    emotions.contains (get_smart_mock_reply s r).emotion = true ∧
    actions.contains (get_smart_mock_reply s r).action = true := by
  have hall : ∀ x ∈ allMockReplies,
      emotions.contains x.emotion = true ∧ actions.contains x.action = true := by
    decide
  exact hall _ (mock_mem s r)

theorem listPrefixOf_map (f : Char → Char) (p s : List Char)
    (h : listPrefixOf p s = true) :
    listPrefixOf (p.map f) (s.map f) = true := by
  induction p generalizing s with
  | nil => simp [listPrefixOf]
  | cons a as ih =>
    cases s with
    | nil => simp [listPrefixOf] at h
    | cons b bs =>
      simp only [listPrefixOf, Bool.and_eq_true, beq_iff_eq] at h
      simp only [List.map_cons, listPrefixOf, Bool.and_eq_true, beq_iff_eq]
      exact ⟨by rw [h.1], ih bs h.2⟩

theorem listSub_map (f : Char → Char) (p s : List Char)
    (h : listSub p s = true) : listSub (p.map f) (s.map f) = true := by
  induction s with
  | nil =>
    simp only [listSub, List.isEmpty_iff] at h
    subst h
    simp [listSub]
  | cons c cs ih =>
    simp only [listSub, Bool.or_eq_true, List.map_cons] at h ⊢
    rcases h with h | h
    · exact Or.inl (by simpa using listPrefixOf_map f p (c :: cs) h)
    · exact Or.inr (ih h)

theorem containsSub_pyLower (s pat : String)
    (hfix : pat.data.map Char.toLower = pat.data)
    (h : containsSub s pat = true) : containsSub (pyLower s) pat = true := by
  have hm := listSub_map Char.toLower pat.data s.data h
  rw [hfix] at hm
  exact hm

theorem recordUserTurn_none (st : SessionStore) (text ts : String) :
    recordUserTurn st none text ts = st := rfl

theorem recordUserTurn_emptyId (st : SessionStore) (text ts : String) :
    recordUserTurn st (some "") text ts = st := by
  simp [recordUserTurn]

theorem storeGet_recordUserTurn_self (st : SessionStore) (sid : String)
    (hsid : sid ≠ "") (text ts : String) :
    storeGet (recordUserTurn st (some sid) text ts) sid =
      if (storeGet st sid).length + 1 > MAX_HISTORY_LENGTH * 2 then
        (storeGet st sid ++ [Turn.mk "user" text ts]).drop
          ((storeGet st sid).length + 1 - MAX_HISTORY_LENGTH * 2)
      else storeGet st sid ++ [Turn.mk "user" text ts] := by
  have hb : (sid == "") = false := beq_eq_false_iff_ne.mpr hsid
  simp [recordUserTurn, hb, storeGet_storeSet_self]

theorem recordUserTurn_no_trim (st : SessionStore) (sid : String)
    (hsid : sid ≠ "") (text ts : String)
    (hlen : (storeGet st sid).length < MAX_HISTORY_LENGTH * 2) :
    storeGet (recordUserTurn st (some sid) text ts) sid =
      storeGet st sid ++ [Turn.mk "user" text ts] := by
  rw [storeGet_recordUserTurn_self st sid hsid text ts, if_neg (by omega)]

theorem recordUserTurn_split (st : SessionStore) (sid : String)
    (hsid : sid ≠ "") (text ts : String) :
    ∃ x, storeGet (recordUserTurn st (some sid) text ts) sid =
        x ++ [Turn.mk "user" text ts] ∧ x <:+ storeGet st sid := by
  rw [storeGet_recordUserTurn_self st sid hsid text ts]
  have h40 : MAX_HISTORY_LENGTH * 2 = 40 := rfl
  by_cases hc : (storeGet st sid).length + 1 > MAX_HISTORY_LENGTH * 2
  · refine ⟨(storeGet st sid).drop
      ((storeGet st sid).length + 1 - MAX_HISTORY_LENGTH * 2), ?_,
      List.drop_suffix _ _⟩
    rw [if_pos hc, List.drop_append_of_le_length (by omega)]
  · exact ⟨storeGet st sid, by rw [if_neg hc], List.suffix_refl _⟩

theorem recordUserTurn_length (st : SessionStore) (sid : String)
    (hsid : sid ≠ "") (text ts : String) :
    (storeGet (recordUserTurn st (some sid) text ts) sid).length =
      min ((storeGet st sid).length + 1) (MAX_HISTORY_LENGTH * 2) := by
  rw [storeGet_recordUserTurn_self st sid hsid text ts]
  have h40 : MAX_HISTORY_LENGTH * 2 = 40 := rfl
  by_cases hc : (storeGet st sid).length + 1 > MAX_HISTORY_LENGTH * 2
  · rw [if_pos hc]
    simp only [List.length_drop, List.length_append, List.length_cons,
      List.length_nil]
    omega
  · rw [if_neg hc]
    simp only [List.length_append, List.length_cons, List.length_nil]
    omega

theorem storeGet_recordUserTurn_ne (st : SessionStore) (sid q : String)
    (text ts : String) (hne : q ≠ sid) :
    storeGet (recordUserTurn st (some sid) text ts) q = storeGet st q := by
  simp only [recordUserTurn]
  split
  · rfl
  · exact storeGet_storeSet_ne _ _ _ _ hne

theorem recordAssistantTurn_none (st : SessionStore) (c ts : String) :
    recordAssistantTurn st none c ts = st := rfl

theorem recordAssistantTurn_emptyId (st : SessionStore) (c ts : String) :
    recordAssistantTurn st (some "") c ts = st := by
  simp [recordAssistantTurn]

theorem storeGet_recordAssistantTurn_self (st : SessionStore) (sid : String)
    (hsid : sid ≠ "") (c ts : String) :
    storeGet (recordAssistantTurn st (some sid) c ts) sid =
      storeGet st sid ++ [Turn.mk "assistant" c ts] := by
  have hb : (sid == "") = false := beq_eq_false_iff_ne.mpr hsid
  simp [recordAssistantTurn, hb, storeGet_storeSet_self]

theorem storeGet_recordAssistantTurn_ne (st : SessionStore) (sid q : String)
    (c ts : String) (hne : q ≠ sid) :
    storeGet (recordAssistantTurn st (some sid) c ts) q = storeGet st q := by
  simp only [recordAssistantTurn]
  split
  · rfl
  · exact storeGet_storeSet_ne _ _ _ _ hne

theorem mock_greeting_eq (s : String) (r : Nat)
    (h : containsSub s "你好" = true) :
    get_smart_mock_reply s r = pyChoice greetingReplies r := by
  have hl : containsSub (pyLower s) "你好" = true :=
    containsSub_pyLower s "你好" (by decide) h
  have hany : greetingsKw.any (fun g => containsSub (pyLower s) g) = true :=
    List.any_eq_true.mpr ⟨"你好", by decide, hl⟩
  unfold get_smart_mock_reply
  simp [hany]

theorem generate_reply_local (api_key : Option String) (st : SessionStore)
    (user_text : String) (session_id meta : Option String)
    (remote : RemoteOutcome) (r : Nat) (tsu tsa : String)
    (ha : optTruthy api_key = false) :
    generate_reply api_key st user_text session_id meta remote r tsu tsa =
      (get_smart_mock_reply user_text r,
       recordAssistantTurn (recordUserTurn st session_id user_text tsu)
         session_id (get_smart_mock_reply user_text r).replyText tsa,
       none) := by
  simp only [generate_reply]
  rw [if_pos ha]

theorem generate_reply_failure (api_key : Option String) (st : SessionStore)
    (user_text : String) (session_id meta : Option String) (k : FailureKind)
    (r : Nat) (tsu tsa : String) (ha : optTruthy api_key = true) :
    generate_reply api_key st user_text session_id meta (.failure k) r tsu tsa =
      (get_smart_mock_reply user_text r,
       recordUserTurn st session_id user_text tsu,
       some (buildMessages (recordUserTurn st session_id user_text tsu)
         user_text session_id meta)) := by
  simp only [generate_reply]
  rw [if_neg (by simp [ha])]

theorem generate_reply_notJson (api_key : Option String) (st : SessionStore)
    (user_text : String) (session_id meta : Option String) (raw : String)
    (r : Nat) (tsu tsa : String) (ha : optTruthy api_key = true) :
    generate_reply api_key st user_text session_id meta
        (.success (.notJson raw)) r tsu tsa =
      (⟨raw, "neutral", "idle"⟩,
       recordUserTurn st session_id user_text tsu,
       some (buildMessages (recordUserTurn st session_id user_text tsu)
         user_text session_id meta)) := by
  simp only [generate_reply]
  rw [if_neg (by simp [ha])]

theorem generate_reply_jsonNonObj (api_key : Option String) (st : SessionStore)
    (user_text : String) (session_id meta : Option String)
    (r : Nat) (tsu tsa : String) (ha : optTruthy api_key = true) :
    generate_reply api_key st user_text session_id meta
        (.success .jsonNonObj) r tsu tsa =
      (get_smart_mock_reply user_text r,
       recordUserTurn st session_id user_text tsu,
       some (buildMessages (recordUserTurn st session_id user_text tsu)
         user_text session_id meta)) := by
  simp only [generate_reply]
  rw [if_neg (by simp [ha])]

theorem generate_reply_jsonObj (api_key : Option String) (st : SessionStore)
    (user_text : String) (session_id meta : Option String)
    (rt em ac : Option String) (r : Nat) (tsu tsa : String)
    (ha : optTruthy api_key = true) :
    generate_reply api_key st user_text session_id meta
        (.success (.jsonObj rt em ac)) r tsu tsa =
      (normalizeObj rt em ac user_text,
       recordAssistantTurn (recordUserTurn st session_id user_text tsu)
         session_id (normalizeObj rt em ac user_text).replyText tsa,
       some (buildMessages (recordUserTurn st session_id user_text tsu)
         user_text session_id meta)) := by
  simp only [generate_reply]
  rw [if_neg (by simp [ha])]

theorem normalizeObj_enum_ok (rt em ac : Option String) (t : String) :
    emotions.contains (normalizeObj rt em ac t).emotion = true ∧
    actions.contains (normalizeObj rt em ac t).action = true := by
  constructor
  · simp only [normalizeObj]
    repeat' split
    all_goals first | assumption | decide
  · simp only [normalizeObj]
    repeat' split
    all_goals first | assumption | decide

theorem normalizeObj_eq_spec (rt em ac : Option String) (t : String) :
    normalizeObj rt em ac t =
      Reply.mk
        (if pyStrip (rt.getD "") = "" then "你刚才说：" ++ t
         else pyStrip (rt.getD ""))
        (if emotions.contains (pyStrip (em.getD "neutral")) = true
         then pyStrip (em.getD "neutral") else "neutral")
        (if actions.contains (pyStrip (ac.getD "idle")) = true
         then pyStrip (ac.getD "idle") else "idle") := by
  have hem : emotions.contains "" = false := by decide
  have hac : actions.contains "" = false := by decide
  have hne : emotions.contains "neutral" = true := by decide
  have hid : actions.contains "idle" = true := by decide
  simp only [normalizeObj]
  by_cases h1 : pyStrip (rt.getD "") = "" <;>
    by_cases h2 : pyStrip (em.getD "neutral") = "" <;>
      by_cases h3 : pyStrip (ac.getD "idle") = "" <;>
        simp [h1, h2, h3, hem, hac, hne, hid] <;> decide

/-- C1: for every valid non-empty input, `generate_reply` returns a fully
populated triple whose emotion is one of the 5-value enumeration and whose
action is one of the 8-value enumeration, on every path: local-only mode,
remote success (normalized), remote non-JSON content, and remote failure
fallback. -/
theorem claim1_emotion_action_in_enums (api_key : Option String)
    (st : SessionStore) (user_text : String) (session_id meta : Option String)
    (remote : RemoteOutcome) (r : Nat) (tsu tsa : String)
    (hne : user_text ≠ "") :
    emotions.contains
      ((generate_reply api_key st user_text session_id meta remote r tsu tsa).1.emotion) = true ∧
    actions.contains
      ((generate_reply api_key st user_text session_id meta remote r tsu tsa).1.action) = true := by
  cases ha : optTruthy api_key with
  | false =>
    rw [generate_reply_local api_key st user_text session_id meta remote r tsu tsa ha]
    exact mock_enum_ok user_text r
  | true =>
    rcases remote with k | c
    · rw [generate_reply_failure api_key st user_text session_id meta k r tsu tsa ha]
      exact mock_enum_ok user_text r
    · rcases c with raw | _ | ⟨rt, em, ac⟩
      · rw [generate_reply_notJson api_key st user_text session_id meta raw r tsu tsa ha]
        exact ⟨(by decide : emotions.contains "neutral" = true),
               (by decide : actions.contains "idle" = true)⟩
      · rw [generate_reply_jsonNonObj api_key st user_text session_id meta r tsu tsa ha]
        exact mock_enum_ok user_text r
      · rw [generate_reply_jsonObj api_key st user_text session_id meta rt em ac r tsu tsa ha]
        exact normalizeObj_enum_ok rt em ac user_text

/-- Witness for C1: the non-empty input "你好" in remote-failure mode. -/
theorem claim1_witness :
    ("你好" ≠ "") ∧
    (emotions.contains
      ((generate_reply none [] "你好" none none (.failure .timeout) 0 "t" "t").1.emotion) = true ∧
     actions.contains
      ((generate_reply none [] "你好" none none (.failure .timeout) 0 "t" "t").1.action) = true) :=
  ⟨by decide,
   claim1_emotion_action_in_enums none [] "你好" none none (.failure .timeout) 0 "t" "t" (by decide)⟩

/-- C4: when the remote call fails — timeout, transport error, or any other
failure caught by the handlers — `generate_reply` returns exactly the Local
Responder's result for that input and random source; no remote failure of
any kind is propagated to the caller as an error. -/
theorem claim4_failure_returns_local_result (api_key : Option String)
    (st : SessionStore) (user_text : String) (session_id meta : Option String)
    (r : Nat) (tsu tsa : String) (ha : optTruthy api_key = true) :
    ∀ k : FailureKind,
      (generate_reply api_key st user_text session_id meta (.failure k) r tsu tsa).1 =
        get_smart_mock_reply user_text r := by
  intro k
  rw [generate_reply_failure api_key st user_text session_id meta k r tsu tsa ha]

/-- Witness for C4: a concrete timeout with a configured key. -/
theorem claim4_witness :
    (generate_reply (some "k") [] "你好" none none (.failure .timeout) 0 "t" "t").1 =
      get_smart_mock_reply "你好" 0 :=
  claim4_failure_returns_local_result (some "k") [] "你好" none none 0 "t" "t" (by decide)
    .timeout

/-- C6: a remote success whose content does not parse as JSON yields exactly
the triple with the raw content verbatim as replyText, emotion "neutral" and
action "idle". -/
theorem claim6_nonjson_verbatim (api_key : Option String) (st : SessionStore)
    (user_text : String) (session_id meta : Option String) (raw : String)
    (r : Nat) (tsu tsa : String) (ha : optTruthy api_key = true) :
    (generate_reply api_key st user_text session_id meta
        (.success (.notJson raw)) r tsu tsa).1 =
      Reply.mk raw "neutral" "idle" := by
  rw [generate_reply_notJson api_key st user_text session_id meta raw r tsu tsa ha]

/-- Witness for C6: a concrete non-JSON content string. -/
theorem claim6_witness :
    (generate_reply (some "k") [] "喂" none none
        (.success (.notJson "plain text")) 0 "t" "t").1 =
      Reply.mk "plain text" "neutral" "idle" :=
  claim6_nonjson_verbatim (some "k") [] "喂" none none "plain text" 0 "t" "t" (by decide)

/-- C7: a remote success that parses as a JSON object is normalized: each
field is extracted and trimmed, an empty replyText is replaced by the
fallback phrase built from the user's text, an emotion outside the 5-value
enumeration is replaced by "neutral", and an action inside the 8-value
enumeration is preserved. -/
theorem claim7_normalization (api_key : Option String) (st : SessionStore)
    (user_text : String) (session_id meta : Option String)
    (rt em ac : Option String) (r : Nat) (tsu tsa : String)
    (ha : optTruthy api_key = true) :
    (generate_reply api_key st user_text session_id meta
        (.success (.jsonObj rt em ac)) r tsu tsa).1 =
      Reply.mk
        (if pyStrip (rt.getD "") = "" then "你刚才说：" ++ user_text
         else pyStrip (rt.getD ""))
        (if emotions.contains (pyStrip (em.getD "neutral")) = true
         then pyStrip (em.getD "neutral") else "neutral")
        (if actions.contains (pyStrip (ac.getD "idle")) = true
         then pyStrip (ac.getD "idle") else "idle") := by
  rw [generate_reply_jsonObj api_key st user_text session_id meta rt em ac r tsu tsa ha]
  exact normalizeObj_eq_spec rt em ac user_text

/-- Witness for C7: the spec's own example — replyText "ok", emotion "bogus"
(invalid, defaulted) and action "dance" (valid, preserved). -/
theorem claim7_witness :
    (generate_reply (some "k") [] "嗯" none none
        (.success (.jsonObj (some "ok") (some "bogus") (some "dance"))) 0 "t" "t").1 =
      Reply.mk "ok" "neutral" "dance" := by
  rw [claim7_normalization (some "k") [] "嗯" none none
    (some "ok") (some "bogus") (some "dance") 0 "t" "t" (by decide)]
  decide

/-- C9: a remote success whose content parses as valid JSON that is not a
JSON object makes the field lookup raise, so `generate_reply` returns the
Local Responder's result for the input — not a triple carrying the raw
content — and no assistant turn is appended to the session history (only
the user turn recorded up front remains). -/
theorem claim9_json_non_object (api_key : Option String) (st : SessionStore)
    (user_text : String) (sid : String) (meta : Option String) (r : Nat)
    (tsu tsa : String) (ha : optTruthy api_key = true) (hsid : sid ≠ "")
    (hlen : (storeGet st sid).length < MAX_HISTORY_LENGTH * 2) :
    (generate_reply api_key st user_text (some sid) meta
        (.success .jsonNonObj) r tsu tsa).1 =
      get_smart_mock_reply user_text r ∧
    storeGet (generate_reply api_key st user_text (some sid) meta
        (.success .jsonNonObj) r tsu tsa).2.1 sid =
      storeGet st sid ++ [Turn.mk "user" user_text tsu] := by
  rw [generate_reply_jsonNonObj api_key st user_text (some sid) meta r tsu tsa ha]
  exact ⟨rfl, recordUserTurn_no_trim st sid hsid user_text tsu hlen⟩

/-- Witness for C9: concrete call on an empty store. -/
theorem claim9_witness :
    (generate_reply (some "k") [] "喂" (some "s") none
        (.success .jsonNonObj) 0 "t" "t").1 =
      get_smart_mock_reply "喂" 0 ∧
    storeGet (generate_reply (some "k") [] "喂" (some "s") none
        (.success .jsonNonObj) 0 "t" "t").2.1 "s" =
      storeGet ([] : SessionStore) "s" ++ [Turn.mk "user" "喂" "t"] :=
  claim9_json_non_object (some "k") [] "喂" "s" none 0 "t" "t"
    (by decide) (by decide) (by decide)

/-- Counterexample to C2: a successful call with a sessionId on the
remote-failure fallback path grows the stored history by exactly 1 (only the
user turn), not 2 — the fallback returns before the assistant turn is
recorded. -/
theorem claim2_counterexample :
    storeGet ([] : SessionStore) "s" = [] ∧
    (storeGet (generate_reply (some "k") [] "你好" (some "s") none
        (.failure .timeout) 0 "t1" "t2").2.1 "s").length = 1 := by
  decide

/-- Net growth in entries of the called session's history per successful
`generate_reply` call (below the trimming bound): 2 on the local-only path
and the remote-JSON-object path, 1 on every other remote path. -/
def callGrowth (api_key : Option String) (remote : RemoteOutcome) : Nat :=
  if optTruthy api_key = false then 2
  else
    match remote with
    | .success (.jsonObj _ _ _) => 2
    | _ => 1

/-- C2 (amended): when a sessionId is supplied and the stored history is
below the trimming bound, a successful `generate_reply` call grows it by
exactly 2 entries (user then assistant) on the local-only path and the
remote-JSON-object path, but by exactly 1 entry (the user turn only) on the
remote-failure fallback, non-JSON-content and JSON-non-object paths; with no
sessionId the store does not change at all. -/
theorem claim2_amended_growth (api_key : Option String) (st : SessionStore)
    (user_text : String) (sid : String) (meta : Option String)
    (remote : RemoteOutcome) (r : Nat) (tsu tsa : String)
    (hsid : sid ≠ "") (hlen : (storeGet st sid).length < MAX_HISTORY_LENGTH * 2) :
    (storeGet (generate_reply api_key st user_text (some sid) meta remote r tsu tsa).2.1 sid).length
      = (storeGet st sid).length + callGrowth api_key remote ∧
    (generate_reply api_key st user_text none meta remote r tsu tsa).2.1 = st := by
  constructor
  · cases ha : optTruthy api_key with
    | false =>
      rw [generate_reply_local api_key st user_text (some sid) meta remote r tsu tsa ha]
      dsimp only
      rw [storeGet_recordAssistantTurn_self _ sid hsid,
        recordUserTurn_no_trim st sid hsid user_text tsu hlen]
      simp [callGrowth, ha, List.length_append]
    | true =>
      rcases remote with k | c
      · rw [generate_reply_failure api_key st user_text (some sid) meta k r tsu tsa ha]
        dsimp only
        rw [recordUserTurn_no_trim st sid hsid user_text tsu hlen]
        simp [callGrowth, ha, List.length_append]
      · rcases c with raw | _ | ⟨rt, em, ac⟩
        · rw [generate_reply_notJson api_key st user_text (some sid) meta raw r tsu tsa ha]
          dsimp only
          rw [recordUserTurn_no_trim st sid hsid user_text tsu hlen]
          simp [callGrowth, ha, List.length_append]
        · rw [generate_reply_jsonNonObj api_key st user_text (some sid) meta r tsu tsa ha]
          dsimp only
          rw [recordUserTurn_no_trim st sid hsid user_text tsu hlen]
          simp [callGrowth, ha, List.length_append]
        · rw [generate_reply_jsonObj api_key st user_text (some sid) meta rt em ac r tsu tsa ha]
          dsimp only
          rw [storeGet_recordAssistantTurn_self _ sid hsid,
            recordUserTurn_no_trim st sid hsid user_text tsu hlen]
          simp [callGrowth, ha, List.length_append]
  · cases ha : optTruthy api_key with
    | false =>
      rw [generate_reply_local api_key st user_text none meta remote r tsu tsa ha]
      dsimp only
      rw [recordUserTurn_none, recordAssistantTurn_none]
    | true =>
      rcases remote with k | c
      · rw [generate_reply_failure api_key st user_text none meta k r tsu tsa ha]
        dsimp only
        rw [recordUserTurn_none]
      · rcases c with raw | _ | ⟨rt, em, ac⟩
        · rw [generate_reply_notJson api_key st user_text none meta raw r tsu tsa ha]
          dsimp only
          rw [recordUserTurn_none]
        · rw [generate_reply_jsonNonObj api_key st user_text none meta r tsu tsa ha]
          dsimp only
          rw [recordUserTurn_none]
        · rw [generate_reply_jsonObj api_key st user_text none meta rt em ac r tsu tsa ha]
          dsimp only
          rw [recordUserTurn_none, recordAssistantTurn_none]

/-- Witness for C2 (amended): a concrete local-mode call growing an empty
history by 2. -/
theorem claim2_witness :
    (storeGet (generate_reply none [] "喂" (some "s") none
        (.failure .timeout) 0 "t1" "t2").2.1 "s").length
      = (storeGet ([] : SessionStore) "s").length + callGrowth none (.failure .timeout) ∧
    (generate_reply none [] "喂" none none (.failure .timeout) 0 "t1" "t2").2.1 = [] :=
  claim2_amended_growth none [] "喂" "s" none (.failure .timeout) 0 "t1" "t2"
    (by decide) (by decide)

/-- Counterexample to C5: the input "你好，谢谢" contains "谢谢", yet the
higher-priority greeting category matches first and the action is "wave",
not "nod". -/
theorem claim5_counterexample :
    containsSub "你好，谢谢" "谢谢" = true ∧
    (generate_reply none [] "你好，谢谢" none none
        (.failure .timeout) 0 "t" "t").1.action ≠ "nod" := by
  decide

/-- C5 (amended): in local-only mode (falsy credential), every input
containing "你好" yields emotion "happy" and action "wave" or "greet"; an
input containing "谢谢" yields action "nod" provided no higher-priority
category matches: no greeting keyword occurs in the lowercased input and
none of "你是谁", "介绍", "什么" occurs in it. -/
theorem claim5_amended_keywords (api_key : Option String) (st : SessionStore)
    (user_text : String) (session_id meta : Option String)
    (remote : RemoteOutcome) (r : Nat) (tsu tsa : String)
    (ha : optTruthy api_key = false) :
    (containsSub user_text "你好" = true →
      (generate_reply api_key st user_text session_id meta remote r tsu tsa).1.emotion = "happy" ∧
      ((generate_reply api_key st user_text session_id meta remote r tsu tsa).1.action = "wave" ∨
       (generate_reply api_key st user_text session_id meta remote r tsu tsa).1.action = "greet")) ∧
    (greetingsKw.any (fun g => containsSub (pyLower user_text) g) = false →
      containsSub user_text "你是谁" = false →
      containsSub user_text "介绍" = false →
      containsSub user_text "什么" = false →
      containsSub user_text "谢谢" = true →
      (generate_reply api_key st user_text session_id meta remote r tsu tsa).1.action = "nod") := by
  have hres : (generate_reply api_key st user_text session_id meta remote r tsu tsa).1 =
      get_smart_mock_reply user_text r := by
    rw [generate_reply_local api_key st user_text session_id meta remote r tsu tsa ha]
  rw [hres]
  constructor
  · intro h
    rw [mock_greeting_eq user_text r h]
    have hall : ∀ x ∈ greetingReplies,
        x.emotion = "happy" ∧ (x.action = "wave" ∨ x.action = "greet") := by decide
    exact hall _ (pyChoice_mem greetingReplies r (by decide))
  · intro h1 h2 h3 h4 h5
    unfold get_smart_mock_reply
    rw [if_neg (by simp [h1]), if_neg (by simp [h2, h3, h4]),
      if_pos (by simp [h5])]
    rfl

/-- Witness for C5 (amended): the inputs "你好" and "谢谢" alone. -/
theorem claim5_witness :
    ((generate_reply none [] "你好" none none (.failure .timeout) 1 "t" "t").1.emotion = "happy" ∧
     ((generate_reply none [] "你好" none none (.failure .timeout) 1 "t" "t").1.action = "wave" ∨
      (generate_reply none [] "你好" none none (.failure .timeout) 1 "t" "t").1.action = "greet")) ∧
    (generate_reply none [] "谢谢" none none (.failure .timeout) 0 "t" "t").1.action = "nod" :=
  ⟨(claim5_amended_keywords none [] "你好" none none (.failure .timeout) 1 "t" "t"
      (by decide)).1 (by decide),
   (claim5_amended_keywords none [] "谢谢" none none (.failure .timeout) 0 "t" "t"
      (by decide)).2 (by decide) (by decide) (by decide) (by decide) (by decide)⟩

/-- C8: `clear_session` on an unknown id returns false and leaves the store
unchanged; on a known id it returns true and `get_session_history` for that
id afterwards returns the empty sequence. -/
theorem claim8_clear_session (st : SessionStore) (sid : String)
    (wf : storeWF st) :
    (storeMem st sid = false → clear_session st sid = (false, st)) ∧
    (storeMem st sid = true →
      (clear_session st sid).1 = true ∧
      get_session_history (clear_session st sid).2 sid = []) := by
  constructor
  · intro h
    simp [clear_session, h]
  · intro h
    refine ⟨by simp [clear_session, h], ?_⟩
    simp only [clear_session, h, if_pos]
    exact storeGet_storeDel_self st sid wf

/-- Witness for C8: a store holding the single session "a", queried with the
unknown id "b" and the known id "a". -/
theorem claim8_witness :
    (clear_session [("a", [Turn.mk "user" "x" "t"])] "b" =
      (false, [("a", [Turn.mk "user" "x" "t"])])) ∧
    ((clear_session [("a", [Turn.mk "user" "x" "t"])] "a").1 = true ∧
     get_session_history (clear_session [("a", [Turn.mk "user" "x" "t"])] "a").2 "a" = []) :=
  ⟨(claim8_clear_session [("a", [Turn.mk "user" "x" "t"])] "b"
      (by unfold storeWF; decide)).1 (by decide),
   (claim8_clear_session [("a", [Turn.mk "user" "x" "t"])] "a"
      (by unfold storeWF; decide)).2 (by decide)⟩

/-- A run of `n` successive local-mode `generate_reply` calls on session
"s": the reachable-state witness for the history bound. -/
def iterLocalCalls : Nat → SessionStore → SessionStore
  | 0, st => st
  | n + 1, st =>
    iterLocalCalls n
      (generate_reply none st "测试" (some "s") none (.failure .timeout) 0 "t" "t").2.1

set_option maxRecDepth 10000 in
/-- Counterexample to C3: after 21 successful calls on one session the
stored transcript holds 41 entries, exceeding the claimed bound of
2 × MAX_HISTORY_TURNS = 40 — the assistant-turn append never trims. -/
theorem claim3_counterexample :
    (storeGet (iterLocalCalls 21 []) "s").length = 41 ∧
    ¬ ((storeGet (iterLocalCalls 21 []) "s").length ≤ MAX_HISTORY_LENGTH * 2) := by
  decide

theorem recordUserTurn_store_props (st : SessionStore) (session_id : Option String)
    (user_text tsu : String) (sid : String)
    (hlen : (storeGet st sid).length ≤ MAX_HISTORY_LENGTH * 2 + 1) :
    (storeGet (recordUserTurn st session_id user_text tsu) sid).length
        ≤ MAX_HISTORY_LENGTH * 2 + 1 ∧
    ∃ extra : List Turn,
      storeGet (recordUserTurn st session_id user_text tsu) sid
        <:+ storeGet st sid ++ extra := by
  rcases session_id with _ | q
  · rw [recordUserTurn_none]
    exact ⟨hlen, ⟨[], by simp⟩⟩
  · by_cases hq : q = ""
    · subst hq
      rw [recordUserTurn_emptyId]
      exact ⟨hlen, ⟨[], by simp⟩⟩
    · by_cases hs : sid = q
      · subst hs
        constructor
        · rw [recordUserTurn_length st sid hq user_text tsu]
          have h40 : MAX_HISTORY_LENGTH * 2 = 40 := rfl
          omega
        · obtain ⟨x, hx, hsuf⟩ := recordUserTurn_split st sid hq user_text tsu
          obtain ⟨w, hw⟩ := hsuf
          refine ⟨[Turn.mk "user" user_text tsu], ⟨w, ?_⟩⟩
          rw [hx, ← hw]
          simp
      · rw [storeGet_recordUserTurn_ne st q sid user_text tsu hs]
        exact ⟨hlen, ⟨[], by simp⟩⟩

theorem record_both_store_props (st : SessionStore) (session_id : Option String)
    (user_text c tsu tsa : String) (sid : String)
    (hlen : (storeGet st sid).length ≤ MAX_HISTORY_LENGTH * 2 + 1) :
    (storeGet (recordAssistantTurn (recordUserTurn st session_id user_text tsu)
        session_id c tsa) sid).length ≤ MAX_HISTORY_LENGTH * 2 + 1 ∧
    ∃ extra : List Turn,
      storeGet (recordAssistantTurn (recordUserTurn st session_id user_text tsu)
        session_id c tsa) sid <:+ storeGet st sid ++ extra := by
  rcases session_id with _ | q
  · rw [recordAssistantTurn_none, recordUserTurn_none]
    exact ⟨hlen, ⟨[], by simp⟩⟩
  · by_cases hq : q = ""
    · subst hq
      rw [recordAssistantTurn_emptyId, recordUserTurn_emptyId]
      exact ⟨hlen, ⟨[], by simp⟩⟩
    · by_cases hs : sid = q
      · subst hs
        rw [storeGet_recordAssistantTurn_self _ sid hq]
        constructor
        · rw [List.length_append, recordUserTurn_length st sid hq user_text tsu]
          have h40 : MAX_HISTORY_LENGTH * 2 = 40 := rfl
          simp only [List.length_cons, List.length_nil]
          omega
        · obtain ⟨x, hx, hsuf⟩ := recordUserTurn_split st sid hq user_text tsu
          obtain ⟨w, hw⟩ := hsuf
          refine ⟨[Turn.mk "user" user_text tsu, Turn.mk "assistant" c tsa], ⟨w, ?_⟩⟩
          rw [hx, ← hw]
          simp
      · rw [storeGet_recordAssistantTurn_ne _ q sid c tsa hs,
          storeGet_recordUserTurn_ne st q sid user_text tsu hs]
        exact ⟨hlen, ⟨[], by simp⟩⟩

theorem generate_reply_store_cases (api_key : Option String) (st : SessionStore)
    (user_text : String) (session_id meta : Option String)
    (remote : RemoteOutcome) (r : Nat) (tsu tsa : String) :
    (generate_reply api_key st user_text session_id meta remote r tsu tsa).2.1 =
      recordUserTurn st session_id user_text tsu ∨
    ∃ c, (generate_reply api_key st user_text session_id meta remote r tsu tsa).2.1 =
      recordAssistantTurn (recordUserTurn st session_id user_text tsu)
        session_id c tsa := by
  cases ha : optTruthy api_key with
  | false =>
    exact Or.inr ⟨_, by rw [generate_reply_local api_key st user_text session_id meta remote r tsu tsa ha]⟩
  | true =>
    rcases remote with k | con
    · exact Or.inl (by rw [generate_reply_failure api_key st user_text session_id meta k r tsu tsa ha])
    · rcases con with raw | _ | ⟨rt, em, ac⟩
      · exact Or.inl (by rw [generate_reply_notJson api_key st user_text session_id meta raw r tsu tsa ha])
      · exact Or.inl (by rw [generate_reply_jsonNonObj api_key st user_text session_id meta r tsu tsa ha])
      · exact Or.inr ⟨_, by rw [generate_reply_jsonObj api_key st user_text session_id meta rt em ac r tsu tsa ha]⟩

/-- C3 (amended): for every session and every call, a transcript of at most
2 × MAX_HISTORY_TURNS + 1 = 41 entries stays within 41 entries — the
user-turn append trims to the most recent 40 entries (oldest discarded
first, order preserved: the new transcript is a suffix of the old transcript
extended by the appended turns), while the assistant-turn append does not
trim, so a transcript momentarily holds up to 41 entries. -/
theorem claim3_amended_bound (api_key : Option String) (st : SessionStore)
    (user_text : String) (session_id meta : Option String)
    (remote : RemoteOutcome) (r : Nat) (tsu tsa : String) (sid : String)
    (hlen : (storeGet st sid).length ≤ MAX_HISTORY_LENGTH * 2 + 1) :
    (storeGet (generate_reply api_key st user_text session_id meta remote r tsu tsa).2.1 sid).length
        ≤ MAX_HISTORY_LENGTH * 2 + 1 ∧
    ∃ extra : List Turn,
      storeGet (generate_reply api_key st user_text session_id meta remote r tsu tsa).2.1 sid
        <:+ storeGet st sid ++ extra := by
  rcases generate_reply_store_cases api_key st user_text session_id meta remote r tsu tsa
    with h | ⟨c, h⟩ <;> rw [h]
  · exact recordUserTurn_store_props st session_id user_text tsu sid hlen
  · exact record_both_store_props st session_id user_text c tsu tsa sid hlen

/-- Witness for C3 (amended): a concrete call on an empty store. -/
theorem claim3_witness :
    (storeGet (generate_reply none [] "喂" (some "s") none
        (.failure .timeout) 0 "t" "t").2.1 "s").length
      ≤ MAX_HISTORY_LENGTH * 2 + 1 ∧
    ∃ extra : List Turn,
      storeGet (generate_reply none [] "喂" (some "s") none
        (.failure .timeout) 0 "t" "t").2.1 "s"
        <:+ storeGet ([] : SessionStore) "s" ++ extra :=
  claim3_amended_bound none [] "喂" (some "s") none (.failure .timeout) 0 "t" "t" "s"
    (by decide)

theorem storeMem_recordUserTurn_self (st : SessionStore) (sid : String)
    (hsid : sid ≠ "") (text ts : String) :
    storeMem (recordUserTurn st (some sid) text ts) sid = true := by
  have hb : (sid == "") = false := beq_eq_false_iff_ne.mpr hsid
  simp [recordUserTurn, hb, storeMem_storeSet_self]

/-- C10: when a sessionId is supplied and the remote path is taken, the user
turn is appended to the history before the prompt is built, so the history
slice already ends with the current user text and the built message list
contains the current user text twice in a row: once as the last
history-window message and once as the explicit current user message. -/
theorem claim10_prompt_duplicates_user (api_key : Option String)
    (st : SessionStore) (user_text : String) (sid : String)
    (meta : Option String) (remote : RemoteOutcome) (r : Nat)
    (tsu tsa : String) (ha : optTruthy api_key = true) (hsid : sid ≠ "") :
    ∃ msgs winPre metaMsgs,
      (generate_reply api_key st user_text (some sid) meta remote r tsu tsa).2.2 = some msgs ∧
      msgs = Message.mk "system" system_prompt ::
        (winPre ++ [Message.mk "user" user_text, Message.mk "user" user_text] ++ metaMsgs) ∧
      (historyWindow (recordUserTurn st (some sid) user_text tsu) sid).getLast?
        = some (Turn.mk "user" user_text tsu) := by
  have hb : (sid == "") = false := beq_eq_false_iff_ne.mpr hsid
  have hmsg : (generate_reply api_key st user_text (some sid) meta remote r tsu tsa).2.2 =
      some (buildMessages (recordUserTurn st (some sid) user_text tsu)
        user_text (some sid) meta) := by
    rcases remote with k | con
    · rw [generate_reply_failure api_key st user_text (some sid) meta k r tsu tsa ha]
    · rcases con with raw | _ | ⟨rt, em, ac⟩
      · rw [generate_reply_notJson api_key st user_text (some sid) meta raw r tsu tsa ha]
      · rw [generate_reply_jsonNonObj api_key st user_text (some sid) meta r tsu tsa ha]
      · rw [generate_reply_jsonObj api_key st user_text (some sid) meta rt em ac r tsu tsa ha]
  obtain ⟨x, hx, hxs⟩ := recordUserTurn_split st sid hsid user_text tsu
  have hwin : historyWindow (recordUserTurn st (some sid) user_text tsu) sid =
      x.drop (x.length + 1 - 10) ++ [Turn.mk "user" user_text tsu] := by
    simp only [historyWindow, hx, List.length_append, List.length_cons,
      List.length_nil]
    rw [List.drop_append_of_le_length (by omega)]
  have hlast : (historyWindow (recordUserTurn st (some sid) user_text tsu) sid).getLast?
      = some (Turn.mk "user" user_text tsu) := by
    rw [hwin]
    exact List.getLast?_concat _
  have hmem : storeMem (recordUserTurn st (some sid) user_text tsu) sid = true :=
    storeMem_recordUserTurn_self st sid hsid user_text tsu
  refine ⟨buildMessages (recordUserTurn st (some sid) user_text tsu)
      user_text (some sid) meta,
    (x.drop (x.length + 1 - 10)).filterMap toPromptMsg,
    (match meta with
     | none => []
     | some m => [Message.mk "system" ("附加上下文信息（可选）：" ++ m)]),
    hmsg, ?_, hlast⟩
  rcases meta with _ | m <;>
    simp [buildMessages, hb, hmem, hwin, List.filterMap_append, toPromptMsg]

/-- Witness for C10: a concrete remote-path call on an empty store. -/
theorem claim10_witness :
    ∃ msgs winPre metaMsgs,
      (generate_reply (some "k") [] "早" (some "s") none
          (.failure .timeout) 0 "t" "t").2.2 = some msgs ∧
      msgs = Message.mk "system" system_prompt ::
        (winPre ++ [Message.mk "user" "早", Message.mk "user" "早"] ++ metaMsgs) ∧
      (historyWindow (recordUserTurn [] (some "s") "早" "t") "s").getLast?
        = some (Turn.mk "user" "早" "t") :=
  claim10_prompt_duplicates_user (some "k") [] "早" "s" none (.failure .timeout) 0 "t" "t"
    (by decide) (by decide)
